import Mathlib

/-!
Shallow embedding of the `frames` Go package (knei-knurow/frames),
source file `src/frames.go`.

A Go `Frame` is `[]byte`; it is modelled as `List Nat` whose entries are
byte values. Go operations that can panic with an index-out-of-range error
are modelled as `Option`-valued functions returning `none` exactly where
the Go code panics. `byte(...)` conversions that can wrap are modelled
with `% 256`. ASCII literals: '+' = 43, '#' = 35, 'A' = 65, 'Z' = 90,
'0' = 48, '9' = 57.

Embedded operations:
  * `Header`, `LenData`, `Data`, `Checksum` — the accessor methods;
  * `Create` — frame construction with checksum;
  * `Recreate` — copying a raw buffer into a fresh frame (a small heap
    model makes the freshness of the Go `make` allocation observable);
  * `Verify` — the structural validator;
  * `CalculateChecksum` — XOR of all bytes except the last.
-/

namespace Frames

/-- A frame is a list of byte values (Go `type Frame []byte`). -/
abbrev Frame := List Nat

/-- `CalculateChecksum` (frames.go:139-146):
`crc = frame[0]; for i := 1; i < len(frame)-1; i++ { crc ^= frame[i] }`.
Reading `frame[0]` of an empty frame panics in Go, hence `none` on `[]`.
The loop XORs `frame[1] .. frame[len-2]` into `crc`, i.e. every element
of the tail except the tail's last element. -/
def CalculateChecksum : Frame → Option Nat
  | [] => none
  | b :: rest => some (List.foldl Nat.xor b rest.dropLast)

/-- `Frame.Header` (frames.go:26-28): `f[:2]`; the slice expression
panics when `len f < 2`. -/
def Header (f : Frame) : Option (List Nat) :=
  if 2 ≤ f.length then some (f.take 2) else none

/-- `Frame.LenData` (frames.go:31-33): `int(f[2])`; panics when
`len f < 3`. -/
def LenData (f : Frame) : Option Nat :=
  f[2]?

/-- `Frame.Data` (frames.go:37-43): `f[4 : 4+f.LenData()]`; the slice
expression panics when the upper bound `4 + f.LenData()` exceeds `len f`. -/
def Data (f : Frame) : Option (List Nat) :=
  match LenData f with
  | none => none
  | some n => if 4 + n ≤ f.length then some ((f.drop 4).take n) else none

/-- `Frame.Checksum` (frames.go:46-48): `f[len(f)-1]`; panics on an
empty frame. -/
def Checksum (f : Frame) : Option Nat :=
  f[f.length - 1]?

/-- `Create` (frames.go:54-64): allocates a zero-filled buffer of length
`2+1+1+len(data)+2`, writes the header, `byte(len(data))` (which wraps
mod 256), '+' (43), the data bytes, '#' (35), and finally overwrites the
last byte with `CalculateChecksum` of the buffer. At that point the last
byte is still 0, which is irrelevant because the checksum ignores the
last byte. -/
def Create (h : Nat × Nat) (d : List Nat) : Frame :=
  let body := h.1 :: h.2 :: (d.length % 256) :: 43 :: (d ++ [35])
  body ++ [(CalculateChecksum (body ++ [0])).getD 0]

/-- The header-byte test from `Verify` (frames.go:108 and 114):
`(b > 'A' && b < 'Z') || (b > '0' && b < '9')`, i.e. exclusive bounds on
both sides of both ranges. -/
def validHeaderByte (b : Nat) : Bool :=
  (decide (65 < b) && decide (b < 90)) || (decide (48 < b) && decide (b < 57))

/-- `Verify` (frames.go:106-133). Each Go slice read that can panic is a
match on an `Option`; `none` marks the panic. The checks, in source
order: both header bytes pass `validHeaderByte`;
`frame[2] != byte(frame.LenData())` (the `byte` conversion is `% 256`);
`frame[3] != '+'`; `frame[len(frame)-2] != '#'`; and finally
`CalculateChecksum(frame) == frame.Checksum()`. -/
def Verify (frame : Frame) : Option Bool :=
  match frame[0]? with
  | none => none
  | some first =>
    if !validHeaderByte first then some false
    else
      match frame[1]? with
      | none => none
      | some second =>
        if !validHeaderByte second then some false
        else
          match frame[2]?, LenData frame with
          | some b2, some l =>
            if b2 ≠ l % 256 then some false
            else
              match frame[3]? with
              | none => none
              | some b3 =>
                if b3 ≠ 43 then some false
                else
                  match frame[frame.length - 2]? with
                  | none => none
                  | some bp =>
                    if bp ≠ 35 then some false
                    else
                      match CalculateChecksum frame, Checksum frame with
                      | some crc, some cs => some (crc == cs)
                      | _, _ => none
          | _, _ => none

/-- A heap of allocated byte buffers; a Go slice value is an index into
it. This makes the freshness of a `make` allocation observable so that
the aliasing behaviour of `Recreate` can be stated. -/
abbrev Heap := List (List Nat)

/-- Go's `copy(dst, src)` for byte slices: overwrites the first
`min (len dst) (len src)` bytes of `dst` with those of `src` and keeps
the rest of `dst`. -/
def copyBuf (dst src : List Nat) : List Nat :=
  src.take dst.length ++ dst.drop src.length

/-- `Recreate` (frames.go:70-74): `frame := make(Frame, len(buf))`
allocates a fresh zero-filled buffer — here appended at the end of the
heap, its id being the old heap length — and `copy(frame, buf)` fills it
with the source bytes. Returns the new heap together with the id of the
freshly allocated frame. -/
def Recreate (σ : Heap) (bid : Nat) : Heap × Nat :=
  let buf := σ.getD bid []
  (σ ++ [copyBuf (List.replicate buf.length 0) buf], σ.length)

/-- Mutation of one byte of an allocated buffer (`buf[i] = v`) in the
heap model. -/
def mutateByte (σ : Heap) (bid i v : Nat) : Heap :=
  σ.set bid ((σ.getD bid []).set i v)

instance : Std.Commutative Nat.xor := ⟨Nat.xor_comm⟩

instance : Std.Associative Nat.xor := ⟨Nat.xor_assoc⟩

lemma create_eq (h : Nat × Nat) (d : List Nat) :
    Create h d = h.1 :: h.2 :: (d.length % 256) :: 43 ::
      (d ++ [35, List.foldl Nat.xor h.1
        (h.2 :: (d.length % 256) :: 43 :: (d ++ [35]))]) := by
  simp only [Create, CalculateChecksum, List.cons_append, List.dropLast_concat,
    Option.getD_some, List.append_assoc, List.nil_append, List.dropLast_cons₂,
    List.dropLast_append_of_ne_nil, List.dropLast_single, List.append_nil,
    ne_eq, List.cons_ne_nil, not_false_eq_true, List.dropLast_cons_of_ne_nil,
    List.append_eq_nil, and_false, false_and, not_false_iff]

lemma length_create (h : Nat × Nat) (d : List Nat) :
    (Create h d).length = 6 + d.length := by
  rw [create_eq]
  simp [List.length_append]
  omega

lemma verify_create (h0 h1 : Nat) (d : List Nat)
    (v0 : validHeaderByte h0 = true) (v1 : validHeaderByte h1 = true) :
    Verify (Create (h0, h1) d) = some true := by
  rw [create_eq]
  set l := d.length % 256 with hl
  set t := h1 :: l :: 43 :: (d ++ [35]) with ht
  set crc := List.foldl Nat.xor h0 t with hcrc
  set F := h0 :: h1 :: l :: 43 :: (d ++ [35, crc]) with hF
  have hFt : F = (h0 :: t) ++ [crc] := by simp [hF, ht]
  have e0 : F[0]? = some h0 := by rw [hF]; simp
  have e1 : F[1]? = some h1 := by rw [hF]; simp
  have e2 : F[2]? = some l := by rw [hF]; simp
  have e3 : F[3]? = some 43 := by rw [hF]; simp
  have hlen : F.length = 6 + d.length := by
    rw [hFt]; simp [ht]; omega
  have e4 : F[F.length - 2]? = some 35 := by
    rw [hlen]
    have h62 : 6 + d.length - 2 = 4 + d.length := by omega
    rw [h62]
    have hsplit : F = [h0, h1, l, 43] ++ (d ++ [35, crc]) := rfl
    rw [hsplit, List.getElem?_append_right (by simp)]
    have h44 : 4 + d.length - List.length [h0, h1, l, 43] = d.length := by simp
    rw [h44, List.getElem?_append_right (Nat.le_refl _), Nat.sub_self]
    simp
  have e5 : CalculateChecksum F = some crc := by
    rw [hFt]
    show CalculateChecksum (h0 :: (t ++ [crc])) = some crc
    simp [CalculateChecksum, List.dropLast_concat, hcrc]
  have e6 : Checksum F = some crc := by
    rw [Checksum, hFt]
    have : ((h0 :: t) ++ [crc]).length - 1 = (h0 :: t).length := by simp
    rw [this]
    exact List.getElem?_concat_length _ _
  have el : LenData F = some l := e2
  have hl2 : l % 256 = l := Nat.mod_eq_of_lt (Nat.mod_lt _ (by norm_num))
  simp only [Verify, e0, e1, e2, e3, e4, e5, e6, el, v0, v1, hl2]
  simp

lemma lenData_create (h : Nat × Nat) (d : List Nat) :
    LenData (Create h d) = some (d.length % 256) := by
  rw [create_eq, LenData]
  simp

lemma header_create (h0 h1 : Nat) (d : List Nat) :
    Header (Create (h0, h1) d) = some [h0, h1] := by
  have h2 : 2 ≤ (Create (h0, h1) d).length := by rw [length_create]; omega
  rw [Header, if_pos h2, create_eq]
  simp

lemma data_create (h0 h1 : Nat) (d : List Nat) (hd : d.length ≤ 255) :
    Data (Create (h0, h1) d) = some d := by
  have hld : LenData (Create (h0, h1) d) = some d.length := by
    rw [lenData_create, Nat.mod_eq_of_lt (by omega)]
  rw [Data, hld]
  dsimp only
  rw [length_create, if_pos (by omega), create_eq]
  simp [List.take_left']

lemma calculateChecksum_eq_foldl (f : Frame) (hf : 2 ≤ f.length) :
    CalculateChecksum f = some (List.foldl Nat.xor 0 f.dropLast) := by
  match f, hf with
  | a :: b :: r, _ =>
    show some (List.foldl Nat.xor a (b :: r).dropLast)
       = some (List.foldl Nat.xor 0 ((a :: b :: r).dropLast))
    rw [List.dropLast_cons₂, List.foldl_cons]
    rw [show Nat.xor 0 a = a from Nat.zero_xor a]

lemma copyBuf_fresh (src : List Nat) :
    copyBuf (List.replicate src.length 0) src = src := by
  rw [copyBuf, List.length_replicate, List.take_length,
    List.drop_eq_nil_of_le (by rw [List.length_replicate]), List.append_nil]

lemma getElem?_set_concat (L : Heap) (bid : Nat) (hbid : bid < L.length)
    (y x : List Nat) : ((L ++ [x]).set bid y)[L.length]? = some x := by
  rw [List.set_append_left _ _ hbid]
  have h : (L.set bid y).length = L.length := List.length_set ..
  rw [← h, List.getElem?_concat_length]

lemma verify_true_inv {f : Frame} (h : Verify f = some true) :
    ∃ b0 b1 b2, f[0]? = some b0 ∧ validHeaderByte b0 = true ∧
      f[1]? = some b1 ∧ validHeaderByte b1 = true ∧
      f[2]? = some b2 ∧ b2 < 256 ∧
      f[3]? = some 43 ∧ f[f.length - 2]? = some 35 ∧ 4 ≤ f.length := by
  unfold Verify LenData at h
  cases e0 : f[0]? with
  | none => rw [e0] at h; simp at h
  | some b0 =>
  rw [e0] at h
  dsimp only at h
  cases hv0 : validHeaderByte b0 with
  | false => rw [hv0] at h; simp at h
  | true =>
  rw [hv0, Bool.not_true] at h
  rw [if_neg Bool.false_ne_true] at h
  cases e1 : f[1]? with
  | none => rw [e1] at h; simp at h
  | some b1 =>
  rw [e1] at h
  dsimp only at h
  cases hv1 : validHeaderByte b1 with
  | false => rw [hv1] at h; simp at h
  | true =>
  rw [hv1, Bool.not_true] at h
  rw [if_neg Bool.false_ne_true] at h
  cases e2 : f[2]? with
  | none => rw [e2] at h; simp at h
  | some b2 =>
  rw [e2] at h
  dsimp only at h
  by_cases h256 : b2 ≠ b2 % 256
  · rw [if_pos h256] at h; simp at h
  rw [if_neg h256] at h
  push_neg at h256
  have hb2 : b2 < 256 := by
    have := Nat.mod_lt b2 (show 0 < 256 by norm_num)
    omega
  cases e3 : f[3]? with
  | none => rw [e3] at h; simp at h
  | some b3 =>
  rw [e3] at h
  dsimp only at h
  by_cases h43 : b3 ≠ 43
  · rw [if_pos h43] at h; simp at h
  rw [if_neg h43] at h
  push_neg at h43
  subst h43
  cases ep : f[f.length - 2]? with
  | none => rw [ep] at h; simp at h
  | some bp =>
  rw [ep] at h
  dsimp only at h
  by_cases h35 : bp ≠ 35
  · rw [if_pos h35] at h; simp at h
  rw [if_neg h35] at h
  push_neg at h35
  subst h35
  have hlen4 : 4 ≤ f.length := by
    by_contra hh
    push_neg at hh
    rw [List.getElem?_eq_none (by omega)] at e3
    cases e3
  exact ⟨b0, b1, b2, rfl, hv0, rfl, hv1, rfl, hb2, rfl, rfl, hlen4⟩

lemma verify_eq_false_of_plus {g : Frame} {b0 b1 b2 b3 : Nat}
    (e0 : g[0]? = some b0) (hv0 : validHeaderByte b0 = true)
    (e1 : g[1]? = some b1) (hv1 : validHeaderByte b1 = true)
    (e2 : g[2]? = some b2) (hb2 : b2 < 256)
    (e3 : g[3]? = some b3) (h43 : b3 ≠ 43) :
    Verify g = some false := by
  unfold Verify LenData
  rw [e0]; dsimp only; rw [hv0, Bool.not_true, if_neg Bool.false_ne_true]
  rw [e1]; dsimp only; rw [hv1, Bool.not_true, if_neg Bool.false_ne_true]
  rw [e2]; dsimp only; rw [if_neg (by omega : ¬b2 ≠ b2 % 256)]
  rw [e3]; dsimp only; rw [if_pos h43]

lemma verify_eq_false_of_hash {g : Frame} {b0 b1 b2 bp : Nat}
    (e0 : g[0]? = some b0) (hv0 : validHeaderByte b0 = true)
    (e1 : g[1]? = some b1) (hv1 : validHeaderByte b1 = true)
    (e2 : g[2]? = some b2) (hb2 : b2 < 256)
    (e3 : g[3]? = some 43)
    (ep : g[g.length - 2]? = some bp) (h35 : bp ≠ 35) :
    Verify g = some false := by
  unfold Verify LenData
  rw [e0]; dsimp only; rw [hv0, Bool.not_true, if_neg Bool.false_ne_true]
  rw [e1]; dsimp only; rw [hv1, Bool.not_true, if_neg Bool.false_ne_true]
  rw [e2]; dsimp only; rw [if_neg (by omega : ¬b2 ≠ b2 % 256)]
  rw [e3]; dsimp only; rw [if_neg (by simp : ¬(43 : Nat) ≠ 43)]
  rw [ep]; dsimp only; rw [if_pos h35]

lemma verify_eq_false_of_len {g : Frame} {b0 b1 b2 : Nat}
    (e0 : g[0]? = some b0) (hv0 : validHeaderByte b0 = true)
    (e1 : g[1]? = some b1) (hv1 : validHeaderByte b1 = true)
    (e2 : g[2]? = some b2) (hb2 : b2 ≠ b2 % 256) :
    Verify g = some false := by
  unfold Verify LenData
  rw [e0]; dsimp only; rw [hv0, Bool.not_true, if_neg Bool.false_ne_true]
  rw [e1]; dsimp only; rw [hv1, Bool.not_true, if_neg Bool.false_ne_true]
  rw [e2]; dsimp only; rw [if_pos hb2]

/-- Claim C1 (amended). The original claim quantifies over headers whose
bytes are uppercase ASCII letters or digits (inclusive ranges); the
code's header check uses exclusive bounds, so the round-trip holds
exactly for header bytes passing the code's own test, i.e. strictly
between 'A' and 'Z' or strictly between '0' and '9': for such headers
and any data of length at most 255, Verify (Create h d) is true and
Header, Data and LenData recover h, d and the length of d. -/
theorem claim_C1_roundtrip (h0 h1 : Nat) (d : List Nat)
    (v0 : validHeaderByte h0 = true) (v1 : validHeaderByte h1 = true)
    (hd : d.length ≤ 255) :
    Verify (Create (h0, h1) d) = some true ∧
    Header (Create (h0, h1) d) = some [h0, h1] ∧
    Data (Create (h0, h1) d) = some d ∧
    LenData (Create (h0, h1) d) = some d.length := by
  refine ⟨verify_create h0 h1 d v0 v1, header_create h0 h1 d,
    data_create h0 h1 d hd, ?_⟩
  rw [lenData_create, Nat.mod_eq_of_lt (by omega)]

/-- Witness for claim C1 at header "LD" (76, 68) and data [65]. -/
theorem claim_C1_witness :
    (validHeaderByte 76 = true ∧ validHeaderByte 68 = true ∧
      ([65] : List Nat).length ≤ 255) ∧
    (Verify (Create (76, 68) [65]) = some true ∧
     Header (Create (76, 68) [65]) = some [76, 68] ∧
     Data (Create (76, 68) [65]) = some [65] ∧
     LenData (Create (76, 68) [65]) = some 1) :=
  ⟨⟨by decide, by decide, by decide⟩,
    claim_C1_roundtrip 76 68 [65] (by decide) (by decide) (by decide)⟩

/-- Counterexample to claim C1 as stated: 'A' (65) is an uppercase ASCII
letter, hence a valid header byte per the claim, yet the frame built
from header "AD" fails validation because the code's bounds exclude 'A'. -/
theorem claim_C1_counterexample :
    Verify (Create (65, 68) []) = some false := by decide

/-- Claim C2: code evaluation at the failing inputs. The claim says
Verify returns false, without crashing, on every buffer of length 0-5;
in fact Verify reads frame[0] unguarded, so it panics (none) on the
empty buffer, and it accepts the 4-byte buffer ['B','J','#','+'] =
[66, 74, 35, 43] because no minimum-length check exists. -/
theorem claim_C2_code_eval :
    Verify ([] : Frame) = none ∧ Verify [66, 74, 35, 43] = some true := by
  decide

/-- Claim C3: code evaluation at the failing input. The claim says a
frame accepted by Verify satisfies len(frame) = 6 + LengthByte(frame);
but the code's length check compares frame[2] with byte(LenData()),
i.e. with itself, so it never fails: the 11-byte frame
"MT" 0x06 '+' "dondu" '#' 0x63 has length byte 6, total length 11 ≠ 12,
and is nevertheless accepted. The repository's own test suite marks
this very frame invalid. -/
theorem claim_C3_code_eval :
    Verify [77, 84, 6, 43, 100, 111, 110, 100, 117, 35, 99] = some true ∧
    LenData [77, 84, 6, 43, 100, 111, 110, 100, 117, 35, 99] = some 6 ∧
    ([77, 84, 6, 43, 100, 111, 110, 100, 117, 35, 99] : Frame).length ≠ 6 + 6 := by
  decide

/-- Claim C4 (confirmed): for every frame of length at least 2,
CalculateChecksum returns the XOR of all bytes except the final byte. -/
theorem claim_C4_checksum_xor (f : Frame) (hf : 2 ≤ f.length) :
    CalculateChecksum f = some (List.foldl Nat.xor 0 f.dropLast) :=
  calculateChecksum_eq_foldl f hf

/-- Witness for claim C4 at the frame "LD" 0x01 '+' 'A' '#' 0x40. -/
theorem claim_C4_witness :
    2 ≤ ([76, 68, 1, 43, 65, 35, 64] : Frame).length ∧
    CalculateChecksum [76, 68, 1, 43, 65, 35, 64]
      = some (List.foldl Nat.xor 0 ([76, 68, 1, 43, 65, 35, 64] : Frame).dropLast) :=
  ⟨by decide, claim_C4_checksum_xor [76, 68, 1, 43, 65, 35, 64] (by decide)⟩

/-- Claim C5 (confirmed): the literal scenarios. Create with header "LD"
(76, 68) and empty data yields [0x4C, 0x44, 0x00, 0x2B, 0x23, 0x00];
with data ['A'] it yields [0x4C, 0x44, 0x01, 0x2B, 0x41, 0x23, 0x40]
(checksum 0x40 = 64); with data "test" the checksum byte is 0x12 = 18;
with header "MT" (77, 84) and data "dondu" the checksum byte is
0x60 = 96; and each of these frames passes Verify. -/
theorem claim_C5_literal_vectors :
    Create (76, 68) [] = [76, 68, 0, 43, 35, 0] ∧
    Verify [76, 68, 0, 43, 35, 0] = some true ∧
    Create (76, 68) [65] = [76, 68, 1, 43, 65, 35, 64] ∧
    Verify [76, 68, 1, 43, 65, 35, 64] = some true ∧
    Checksum (Create (76, 68) [116, 101, 115, 116]) = some 18 ∧
    Verify (Create (76, 68) [116, 101, 115, 116]) = some true ∧
    Checksum (Create (77, 84) [100, 111, 110, 100, 117]) = some 96 ∧
    Verify (Create (77, 84) [100, 111, 110, 100, 117]) = some true := by
  decide

/-- Claim C6 (amended). The original claim says over-long data surfaces
as a caller-visible failure and is never wrapped modulo 256; in fact
Create performs no length check at all: for every header and data it
returns a complete frame of length 6 + len(data) whose length byte is
len(data) mod 256 — a silent wrap. -/
theorem claim_C6_silent_wrap (h : Nat × Nat) (d : List Nat) :
    LenData (Create h d) = some (d.length % 256) ∧
    (Create h d).length = 6 + d.length :=
  ⟨lenData_create h d, length_create h d⟩

/-- Counterexample to claim C6 as stated: Create with 256 bytes of data
succeeds (no failure is surfaced) and writes length byte 0 = 256 mod 256. -/
theorem claim_C6_counterexample :
    LenData (Create (76, 68) (List.replicate 256 0)) = some 0 ∧
    (List.replicate 256 (0 : Nat)).length = 256 ∧
    (Create (76, 68) (List.replicate 256 0)).length = 262 := by
  refine ⟨?_, List.length_replicate 256 0, ?_⟩
  · rw [lenData_create, List.length_replicate]
  · rw [length_create, List.length_replicate]

/-- Claim C7 (confirmed): for every frame accepted by Verify,
overwriting the byte at offset 3 (the '+') with any byte other than 43,
or the byte at offset len-2 (the '#') with any byte other than 35,
yields a frame on which Verify returns false. -/
theorem claim_C7_delimiter_corruption (f : Frame) (b c : Nat)
    (hvalid : Verify f = some true) (hb : b ≠ 43) (hc : c ≠ 35) :
    Verify (f.set 3 b) = some false ∧
    Verify (f.set (f.length - 2) c) = some false := by
  obtain ⟨b0, b1, b2, e0, hv0, e1, hv1, e2, hb2, e3, ep, hlen4⟩ :=
    verify_true_inv hvalid
  have h3lt : 3 < f.length := by omega
  constructor
  · exact verify_eq_false_of_plus
      ((List.getElem?_set_ne (by omega)).trans e0) hv0
      ((List.getElem?_set_ne (by omega)).trans e1) hv1
      ((List.getElem?_set_ne (by omega)).trans e2) hb2
      (List.getElem?_set_self h3lt) hb
  · by_cases h6 : 6 ≤ f.length
    · have egp : (f.set (f.length - 2) c)[(f.set (f.length - 2) c).length - 2]?
          = some c := by
        rw [List.length_set]
        exact List.getElem?_set_self (by omega)
      exact verify_eq_false_of_hash
        ((List.getElem?_set_ne (by omega)).trans e0) hv0
        ((List.getElem?_set_ne (by omega)).trans e1) hv1
        ((List.getElem?_set_ne (by omega)).trans e2) hb2
        ((List.getElem?_set_ne (by omega)).trans e3)
        egp hc
    · have h45 : f.length = 4 ∨ f.length = 5 := by omega
      rcases h45 with h4 | h5
      · have h42 : f.length - 2 = 2 := by omega
        rw [h42]
        by_cases hc256 : c ≠ c % 256
        · exact verify_eq_false_of_len
            ((List.getElem?_set_ne (by omega)).trans e0) hv0
            ((List.getElem?_set_ne (by omega)).trans e1) hv1
            (List.getElem?_set_self (by omega)) hc256
        · push_neg at hc256
          have hclt : c < 256 := by omega
          have egp : (f.set 2 c)[(f.set 2 c).length - 2]? = some c := by
            rw [List.length_set, h4]
            exact List.getElem?_set_self (by omega)
          exact verify_eq_false_of_hash
            ((List.getElem?_set_ne (by omega)).trans e0) hv0
            ((List.getElem?_set_ne (by omega)).trans e1) hv1
            (List.getElem?_set_self (by omega)) hclt
            ((List.getElem?_set_ne (by omega)).trans e3)
            egp hc
      · exfalso
        have h53 : f.length - 2 = 3 := by omega
        rw [h53, e3] at ep
        simp at ep

/-- Witness for claim C7 at the minimal valid frame and overwrite byte 0. -/
theorem claim_C7_witness :
    (Verify [76, 68, 0, 43, 35, 0] = some true ∧ (0 : Nat) ≠ 43 ∧ (0 : Nat) ≠ 35) ∧
    (Verify (([76, 68, 0, 43, 35, 0] : Frame).set 3 0) = some false ∧
     Verify (([76, 68, 0, 43, 35, 0] : Frame).set
       (([76, 68, 0, 43, 35, 0] : Frame).length - 2) 0) = some false) :=
  ⟨⟨by decide, by decide, by decide⟩,
    claim_C7_delimiter_corruption [76, 68, 0, 43, 35, 0] 0 0
      (by decide) (by decide) (by decide)⟩

/-- Claim C8 (amended). The original claim quantifies over frames of any
equal length; it fails for one-byte frames, where the checksum is the
single byte itself while the non-final bytes form the empty multiset.
For frames of length at least 2 it holds: two frames of equal length
whose non-final bytes are a permutation of each other have the same
CalculateChecksum. -/
theorem claim_C8_perm (f1 f2 : Frame) (hf : 2 ≤ f1.length)
    (hlen : f1.length = f2.length) (hperm : f1.dropLast.Perm f2.dropLast) :
    CalculateChecksum f1 = CalculateChecksum f2 := by
  have h2 : 2 ≤ f2.length := hlen ▸ hf
  rw [calculateChecksum_eq_foldl f1 hf, calculateChecksum_eq_foldl f2 h2]
  exact congrArg some (hperm.foldl_eq 0)

/-- Witness for claim C8 at the frames [1, 2, 9] and [2, 1, 5]. -/
theorem claim_C8_witness :
    2 ≤ ([1, 2, 9] : Frame).length ∧
    ([1, 2, 9] : Frame).length = ([2, 1, 5] : Frame).length ∧
    ([1, 2, 9] : Frame).dropLast.Perm ([2, 1, 5] : Frame).dropLast ∧
    CalculateChecksum [1, 2, 9] = CalculateChecksum [2, 1, 5] :=
  ⟨by decide, by decide, by decide,
    claim_C8_perm [1, 2, 9] [2, 1, 5] (by decide) (by decide) (by decide)⟩

/-- Counterexample to claim C8 as stated: the one-byte frames [5] and
[7] have equal length and the same (empty) multiset of non-final bytes,
yet different checksums. -/
theorem claim_C8_counterexample :
    ([5] : Frame).length = ([7] : Frame).length ∧
    ([5] : Frame).dropLast.Perm ([7] : Frame).dropLast ∧
    CalculateChecksum [5] ≠ CalculateChecksum [7] := by
  decide

/-- Claim C9 (confirmed, in the heap model): Recreate returns a frame
whose bytes equal the source buffer byte for byte, and the frame is a
fresh allocation, so mutating any byte of the source buffer afterwards
leaves the returned frame's bytes unchanged. -/
theorem claim_C9_recreate (σ : Heap) (bid : Nat) (hbid : bid < σ.length) :
    ((Recreate σ bid).1)[(Recreate σ bid).2]? = σ[bid]? ∧
    (∀ i v, (mutateByte (Recreate σ bid).1 bid i v)[(Recreate σ bid).2]?
      = σ[bid]?) := by
  have hsome : σ[bid]? = some (σ.getD bid []) := by
    rw [List.getD_eq_getElem?_getD, List.getElem?_eq_getElem hbid]
    rfl
  constructor
  · show (σ ++ [copyBuf _ _])[σ.length]? = σ[bid]?
    rw [copyBuf_fresh, List.getElem?_concat_length, hsome]
  · intro i v
    show ((σ ++ [copyBuf _ _]).set bid _)[σ.length]? = σ[bid]?
    rw [getElem?_set_concat σ bid hbid, copyBuf_fresh, hsome]

/-- Witness for claim C9 at the one-buffer heap [[1, 2, 3]]. -/
theorem claim_C9_witness :
    (0 < ([[1, 2, 3]] : Heap).length) ∧
    ((Recreate [[1, 2, 3]] 0).1)[(Recreate [[1, 2, 3]] 0).2]?
        = ([[1, 2, 3]] : Heap)[0]? ∧
    (∀ i v, (mutateByte (Recreate [[1, 2, 3]] 0).1 0 i v)[(Recreate [[1, 2, 3]] 0).2]?
        = ([[1, 2, 3]] : Heap)[0]?) :=
  ⟨by decide, claim_C9_recreate [[1, 2, 3]] 0 (by decide)⟩

/-- Claim C10 (confirmed): the header check uses exclusive bounds. For
every frame of length at least 6 whose first two bytes are b0 and b1:
if either byte is exactly 'A' (65), 'Z' (90), '0' (48) or '9' (57)
then Verify returns false; and whenever the bytes are not both strictly
inside the letter or digit range, Verify returns false, so validation
proceeds past the header check only for strictly-interior bytes. -/
theorem claim_C10_exclusive_header (f : Frame) (b0 b1 : Nat)
    (hlen : 6 ≤ f.length) (e0 : f[0]? = some b0) (e1 : f[1]? = some b1) :
    ((b0 = 65 ∨ b0 = 90 ∨ b0 = 48 ∨ b0 = 57 ∨
      b1 = 65 ∨ b1 = 90 ∨ b1 = 48 ∨ b1 = 57) → Verify f = some false) ∧
    (¬(validHeaderByte b0 = true ∧ validHeaderByte b1 = true) →
      Verify f = some false) := by
  have hfail : ¬(validHeaderByte b0 = true ∧ validHeaderByte b1 = true) →
      Verify f = some false := by
    intro hnb
    cases hv0 : validHeaderByte b0 with
    | false =>
      unfold Verify
      rw [e0]
      dsimp only
      rw [hv0, Bool.not_false, if_pos rfl]
    | true =>
      have hv1 : validHeaderByte b1 = false := by
        cases hv1 : validHeaderByte b1 with
        | false => rfl
        | true => exact absurd ⟨hv0, hv1⟩ hnb
      unfold Verify
      rw [e0]
      dsimp only
      rw [hv0, Bool.not_true, if_neg Bool.false_ne_true, e1]
      dsimp only
      rw [hv1, Bool.not_false, if_pos rfl]
  refine ⟨?_, hfail⟩
  intro hmem
  apply hfail
  rintro ⟨hb0, hb1⟩
  rcases hmem with rfl | rfl | rfl | rfl | rfl | rfl | rfl | rfl
  · exact absurd hb0 (by decide)
  · exact absurd hb0 (by decide)
  · exact absurd hb0 (by decide)
  · exact absurd hb0 (by decide)
  · exact absurd hb1 (by decide)
  · exact absurd hb1 (by decide)
  · exact absurd hb1 (by decide)
  · exact absurd hb1 (by decide)

/-- Witness for claim C10 at the frame with header "AD" (65 is exactly
'A', so validation must fail). -/
theorem claim_C10_witness :
    (6 ≤ ([65, 68, 0, 43, 35, 0] : Frame).length ∧
     ([65, 68, 0, 43, 35, 0] : Frame)[0]? = some 65 ∧
     ([65, 68, 0, 43, 35, 0] : Frame)[1]? = some 68) ∧
    (((65 : Nat) = 65 ∨ (65 : Nat) = 90 ∨ (65 : Nat) = 48 ∨ (65 : Nat) = 57 ∨
      (68 : Nat) = 65 ∨ (68 : Nat) = 90 ∨ (68 : Nat) = 48 ∨ (68 : Nat) = 57) →
        Verify [65, 68, 0, 43, 35, 0] = some false) ∧
    (¬(validHeaderByte 65 = true ∧ validHeaderByte 68 = true) →
        Verify [65, 68, 0, 43, 35, 0] = some false) :=
  ⟨⟨by decide, by decide, by decide⟩,
    claim_C10_exclusive_header [65, 68, 0, 43, 35, 0] 65 68
      (by decide) (by decide) (by decide)⟩

end Frames
